import Mathlib

/-!
Verification of the invoice/payment matching core of the Cash-App repository
(`src/app.py`).  The core is the function `procesar_archivos_excel` together
with the tolerance predicate `es_cobertura_valida`.

Modelling choices:
* A spreadsheet row is a `Row` with the four required columns
  `CLASS`, `CUSTOMER_NAME`, `TRX_NUMBER`, `INV_AMOUNT`.
* Decimal amounts are modelled as exact rationals (`ℚ`); the Python literals
  `0.88` and the default tolerance `1.0` become `88 / 100` and `1`.
* Python `abs` on numbers is `ratAbs`.
* `itertools.combinations(l, r)` is `combinations r l`, which enumerates the
  size-`r` subsequences of `l` in the same lexicographic-over-position order.
* The per-invoice body of the `for _, factura in facturas.iterrows()` loop is
  `procesarFactura`; the whole loop threading the available-payment pool is
  `runBlocks` (one output block per invoice) and the returned result list is
  their concatenation, `procesar_archivos_excel`.
-/

/-- One input spreadsheet row (the four required columns of `app.py`). -/
structure Row where
  CLASS : String
  CUSTOMER_NAME : String
  TRX_NUMBER : String
  INV_AMOUNT : ℚ
deriving DecidableEq

/-- One output row appended to `resultados` in `procesar_archivos_excel`. -/
structure MatchRecord where
  Factura_TRX : String
  Cliente : String
  ValorFactura : ℚ
  Pago_TRX : String
  ValorPago : ℚ
  Porcentaje : String
deriving DecidableEq

/-- Python `abs` on a rational number. -/
def ratAbs (q : ℚ) : ℚ := if q < 0 then -q else q

/-- Python helper `es_cobertura_valida(monto_pago, monto_objetivo, tolerancia=1.0)` from
`app.py`: `abs(monto_pago - monto_objetivo) <= tolerancia`.  The Python
default argument `tolerancia=1.0` is passed explicitly as `1` at call sites. -/
def es_cobertura_valida (monto_pago monto_objetivo tolerancia : ℚ) : Bool :=
  ratAbs (monto_pago - monto_objetivo) ≤ tolerancia

/-- The `porcentaje` computed for a single payment in the first loop of
`procesar_archivos_excel`: `"100%"` if the payment covers the full invoice
amount within tolerance, else `"88%"` if it covers the 88% target, else none. -/
def singleLabel (valor_factura valor_88 : ℚ) (pago : Row) : Option String :=
  if es_cobertura_valida pago.INV_AMOUNT valor_factura 1 then some "100%"
  else if es_cobertura_valida pago.INV_AMOUNT valor_88 1 then some "88%"
  else none

/-- First element of the list on which `f` returns `some`, together with that
value; models a `for` loop with a `break` on first success. -/
def firstHit (f : α → Option β) : List α → Option (α × β)
  | [] => none
  | x :: xs =>
    match f x with
    | some b => some (x, b)
    | none => firstHit f xs

/-- The single-payment search (step 1 of the loop body): the first payment in
`pagos_lista`, in order, whose `singleLabel` is defined. -/
def findSingle (pagos_lista : List Row) (valor_factura valor_88 : ℚ) :
    Option (Row × String) :=
  firstHit (singleLabel valor_factura valor_88) pagos_lista

/-- Model of `itertools.combinations`: all size-`r` subsequences of a list, in
lexicographic order over positions (combinations containing the first element
come first, each in the order inherited from the tail). -/
def combinations : Nat → List α → List (List α)
  | 0, _ => [[]]
  | _ + 1, [] => []
  | r + 1, x :: xs =>
    ((combinations r xs).map fun c => x :: c) ++ combinations (r + 1) xs

/-- The full enumeration order of the combination search (step 2):
`for r in range(2, min(6, len(pagos_lista) + 1)): for combo in
combinations(pagos_lista, r)`, flattened. -/
def allCombos (pagos_lista : List Row) : List (List Row) :=
  (List.range' 2 (min 6 (pagos_lista.length + 1) - 2)).flatMap
    fun r => combinations r pagos_lista

/-- Sum of the INV_AMOUNT fields of the combo rows, as computed by the
Python generator expression in step 2. -/
def suma (combo : List Row) : ℚ := (combo.map fun p => p.INV_AMOUNT).sum

/-- The `porcentaje` computed for a combination in step 2 of the loop body. -/
def comboLabel (valor_factura valor_88 : ℚ) (combo : List Row) : Option String :=
  if es_cobertura_valida (suma combo) valor_factura 1 then some "100%"
  else if es_cobertura_valida (suma combo) valor_88 1 then some "88%"
  else none

/-- The combination search: the first combination, in enumeration order, whose
`comboLabel` is defined (the double loop with `break` / `if encontrada: break`). -/
def findCombo (pagos_lista : List Row) (valor_factura valor_88 : ℚ) :
    Option (List Row × String) :=
  firstHit (comboLabel valor_factura valor_88) (allCombos pagos_lista)

/-- The output row appended to `resultados` for one matched payment. -/
def mkMatch (factura : Row) (pago : Row) (porcentaje : String) : MatchRecord :=
  { Factura_TRX := factura.TRX_NUMBER
    Cliente := factura.CUSTOMER_NAME
    ValorFactura := factura.INV_AMOUNT
    Pago_TRX := pago.TRX_NUMBER
    ValorPago := pago.INV_AMOUNT
    Porcentaje := porcentaje }

/-- The body of the per-invoice loop of `procesar_archivos_excel`: given the
current pool `pagos_disponibles_df` and one `factura` row, return the rows
appended to `resultados` for this invoice and the updated pool.  Removal
filters the whole pool by the negated isin test on the TRX_NUMBER column,
keyed on `TRX_NUMBER` alone. -/
def procesarFactura (pool : List Row) (factura : Row) :
    List MatchRecord × List Row :=
  let valor_factura := factura.INV_AMOUNT
  let valor_88 := factura.INV_AMOUNT * (88 / 100)
  let pagos_lista := pool.filter fun p => p.CUSTOMER_NAME == factura.CUSTOMER_NAME
  match findSingle pagos_lista valor_factura valor_88 with
  | some (pago, porcentaje) =>
      ([mkMatch factura pago porcentaje],
        pool.filter fun p => !([pago.TRX_NUMBER].contains p.TRX_NUMBER))
  | none =>
    match findCombo pagos_lista valor_factura valor_88 with
    | some (combo, porcentaje) =>
        (combo.map fun p => mkMatch factura p porcentaje,
          pool.filter fun p =>
            !((combo.map fun q => q.TRX_NUMBER).contains p.TRX_NUMBER))
    | none => ([], pool)

/-- The per-invoice loop: one block of output rows per invoice, threading the
available-payment pool from one invoice to the next. -/
def runBlocks : List Row → List Row → List (List MatchRecord)
  | [], _ => []
  | f :: fs, pool =>
    (procesarFactura pool f).1 :: runBlocks fs (procesarFactura pool f).2

/-- The pool left after the per-invoice loop has processed all of `facturas`. -/
def poolAfter : List Row → List Row → List Row
  | [], pool => pool
  | f :: fs, pool => poolAfter fs (procesarFactura pool f).2

/-- Function `procesar_archivos_excel` from `app.py`: split the input into invoice rows
(CLASS equal to INV, in order) and payment rows (CLASS equal to PMT, the
initial pool), run the per-invoice loop, and return the concatenated `resultados`. -/
def procesar_archivos_excel (df : List Row) : List MatchRecord :=
  let facturas := df.filter fun r => r.CLASS == "INV"
  let pagos := df.filter fun r => r.CLASS == "PMT"
  (runBlocks facturas pagos).flatten

/-! ### Basic lemmas about the tolerance predicate and the searches -/

theorem ratAbs_eq_abs (q : ℚ) : ratAbs q = |q| := by
  unfold ratAbs
  rcases lt_or_le q 0 with h | h
  · rw [if_pos h, abs_of_neg h]
  · rw [if_neg (not_lt.mpr h), abs_of_nonneg h]

theorem es_cobertura_valida_iff (a b t : ℚ) :
    es_cobertura_valida a b t = true ↔ |a - b| ≤ t := by
  rw [es_cobertura_valida, ratAbs_eq_abs, decide_eq_true_iff]

theorem es_cobertura_valida_eq_false_iff (a b t : ℚ) :
    es_cobertura_valida a b t = false ↔ ¬ (|a - b| ≤ t) := by
  rw [← es_cobertura_valida_iff, Bool.eq_false_iff, ne_eq]

theorem firstHit_eq_none_iff {α β : Type} {f : α → Option β} {l : List α} :
    firstHit f l = none ↔ ∀ x ∈ l, f x = none := by
  induction l with
  | nil => simp [firstHit]
  | cons a as ih =>
    cases hfa : f a with
    | some b => simp [firstHit, hfa]
    | none => simp [firstHit, hfa, ih]

theorem firstHit_eq_some {α β : Type} {f : α → Option β} {l : List α}
    {x : α} {b : β} (h : firstHit f l = some (x, b)) :
    ∃ l1 l2, l = l1 ++ x :: l2 ∧ (∀ y ∈ l1, f y = none) ∧ f x = some b := by
  induction l with
  | nil => simp [firstHit] at h
  | cons a as ih =>
    cases hfa : f a with
    | some b0 =>
      simp only [firstHit, hfa] at h
      obtain ⟨rfl, rfl⟩ : a = x ∧ b0 = b := by
        constructor <;> [exact congrArg Prod.fst (Option.some.inj h);
          exact congrArg Prod.snd (Option.some.inj h)]
      exact ⟨[], as, rfl, by simp, hfa⟩
    | none =>
      simp only [firstHit, hfa] at h
      obtain ⟨l1, l2, hsplit, hnone, hx⟩ := ih h
      exact ⟨a :: l1, l2, by rw [hsplit]; rfl,
        by intro y hy; rcases List.mem_cons.mp hy with rfl | hy
           · exact hfa
           · exact hnone y hy, hx⟩

theorem firstHit_mem {α β : Type} {f : α → Option β} {l : List α}
    {x : α} {b : β} (h : firstHit f l = some (x, b)) :
    x ∈ l ∧ f x = some b := by
  obtain ⟨l1, l2, rfl, -, hx⟩ := firstHit_eq_some h
  exact ⟨List.mem_append_right l1 (List.mem_cons_self x l2), hx⟩

theorem singleLabel_eq_some {v v88 : ℚ} {p : Row} {pct : String}
    (h : singleLabel v v88 p = some pct) :
    (pct = "100%" ∧ es_cobertura_valida p.INV_AMOUNT v 1 = true) ∨
      (pct = "88%" ∧ es_cobertura_valida p.INV_AMOUNT v 1 = false ∧
        es_cobertura_valida p.INV_AMOUNT v88 1 = true) := by
  unfold singleLabel at h
  rcases h100 : es_cobertura_valida p.INV_AMOUNT v 1 with _ | _
  · rcases h88 : es_cobertura_valida p.INV_AMOUNT v88 1 with _ | _
    · rw [h100, h88] at h; simp at h
    · rw [h100, h88] at h; simp at h
      exact Or.inr ⟨h.symm, rfl, rfl⟩
  · rw [h100] at h; simp at h
    exact Or.inl ⟨h.symm, rfl⟩

theorem singleLabel_eq_none_iff {v v88 : ℚ} {p : Row} :
    singleLabel v v88 p = none ↔
      es_cobertura_valida p.INV_AMOUNT v 1 = false ∧
        es_cobertura_valida p.INV_AMOUNT v88 1 = false := by
  unfold singleLabel
  rcases h100 : es_cobertura_valida p.INV_AMOUNT v 1 with _ | _ <;>
    rcases h88 : es_cobertura_valida p.INV_AMOUNT v88 1 with _ | _ <;> simp

theorem comboLabel_eq_some {v v88 : ℚ} {c : List Row} {pct : String}
    (h : comboLabel v v88 c = some pct) :
    (pct = "100%" ∧ es_cobertura_valida (suma c) v 1 = true) ∨
      (pct = "88%" ∧ es_cobertura_valida (suma c) v 1 = false ∧
        es_cobertura_valida (suma c) v88 1 = true) := by
  unfold comboLabel at h
  rcases h100 : es_cobertura_valida (suma c) v 1 with _ | _
  · rcases h88 : es_cobertura_valida (suma c) v88 1 with _ | _
    · rw [h100, h88] at h; simp at h
    · rw [h100, h88] at h; simp at h
      exact Or.inr ⟨h.symm, rfl, rfl⟩
  · rw [h100] at h; simp at h
    exact Or.inl ⟨h.symm, rfl⟩

theorem comboLabel_eq_none_iff {v v88 : ℚ} {c : List Row} :
    comboLabel v v88 c = none ↔
      es_cobertura_valida (suma c) v 1 = false ∧
        es_cobertura_valida (suma c) v88 1 = false := by
  unfold comboLabel
  rcases h100 : es_cobertura_valida (suma c) v 1 with _ | _ <;>
    rcases h88 : es_cobertura_valida (suma c) v88 1 with _ | _ <;> simp

theorem mem_combinations {α : Type} :
    ∀ {r : Nat} {l c : List α}, c ∈ combinations r l →
      c.Sublist l ∧ c.length = r := by
  intro r l
  induction l generalizing r with
  | nil =>
    intro c h
    cases r with
    | zero =>
      simp only [combinations, List.mem_singleton] at h
      subst h; exact ⟨List.Sublist.refl [], rfl⟩
    | succ r => simp [combinations] at h
  | cons x xs ih =>
    intro c h
    cases r with
    | zero =>
      simp only [combinations, List.mem_singleton] at h
      subst h; exact ⟨List.nil_sublist _, rfl⟩
    | succ r =>
      rw [combinations] at h
      rcases List.mem_append.mp h with h | h
      · obtain ⟨c0, hc0, rfl⟩ := List.mem_map.mp h
        obtain ⟨hs, hl⟩ := ih hc0
        exact ⟨hs.cons₂ x, by simp [hl]⟩
      · obtain ⟨hs, hl⟩ := ih h
        exact ⟨hs.cons x, hl⟩

theorem mem_allCombos {l c : List Row} (h : c ∈ allCombos l) :
    c.Sublist l ∧ 2 ≤ c.length ∧ c.length ≤ 5 := by
  unfold allCombos at h
  obtain ⟨r, hr, hc⟩ := List.mem_flatMap.mp h
  obtain ⟨hs, hl⟩ := mem_combinations hc
  have hr' := List.mem_range'_1.mp hr
  exact ⟨hs, by omega, by omega⟩

/-! ### Case equations for the per-invoice loop body -/

theorem procesarFactura_single {pool : List Row} {f p : Row} {pct : String}
    (h : findSingle (pool.filter fun q => q.CUSTOMER_NAME == f.CUSTOMER_NAME)
        f.INV_AMOUNT (f.INV_AMOUNT * (88 / 100)) = some (p, pct)) :
    procesarFactura pool f =
      ([mkMatch f p pct],
        pool.filter fun q => !([p.TRX_NUMBER].contains q.TRX_NUMBER)) := by
  simp only [procesarFactura, h]

theorem procesarFactura_combo {pool : List Row} {f : Row} {combo : List Row}
    {pct : String}
    (hs : findSingle (pool.filter fun q => q.CUSTOMER_NAME == f.CUSTOMER_NAME)
        f.INV_AMOUNT (f.INV_AMOUNT * (88 / 100)) = none)
    (hc : findCombo (pool.filter fun q => q.CUSTOMER_NAME == f.CUSTOMER_NAME)
        f.INV_AMOUNT (f.INV_AMOUNT * (88 / 100)) = some (combo, pct)) :
    procesarFactura pool f =
      (combo.map fun p => mkMatch f p pct,
        pool.filter fun p =>
          !((combo.map fun q => q.TRX_NUMBER).contains p.TRX_NUMBER)) := by
  simp only [procesarFactura, hs, hc]

theorem procesarFactura_none {pool : List Row} {f : Row}
    (hs : findSingle (pool.filter fun q => q.CUSTOMER_NAME == f.CUSTOMER_NAME)
        f.INV_AMOUNT (f.INV_AMOUNT * (88 / 100)) = none)
    (hc : findCombo (pool.filter fun q => q.CUSTOMER_NAME == f.CUSTOMER_NAME)
        f.INV_AMOUNT (f.INV_AMOUNT * (88 / 100)) = none) :
    procesarFactura pool f = ([], pool) := by
  simp only [procesarFactura, hs, hc]

theorem procesarFactura_cases (pool : List Row) (f : Row) :
    procesarFactura pool f = ([], pool) ∨
      (∃ p pct,
        findSingle (pool.filter fun q => q.CUSTOMER_NAME == f.CUSTOMER_NAME)
            f.INV_AMOUNT (f.INV_AMOUNT * (88 / 100)) = some (p, pct) ∧
          procesarFactura pool f =
            ([mkMatch f p pct],
              pool.filter fun q => !([p.TRX_NUMBER].contains q.TRX_NUMBER))) ∨
      (∃ combo pct,
        findCombo (pool.filter fun q => q.CUSTOMER_NAME == f.CUSTOMER_NAME)
            f.INV_AMOUNT (f.INV_AMOUNT * (88 / 100)) = some (combo, pct) ∧
          procesarFactura pool f =
            (combo.map fun p => mkMatch f p pct,
              pool.filter fun p =>
                !((combo.map fun q => q.TRX_NUMBER).contains p.TRX_NUMBER))) := by
  cases hs : findSingle (pool.filter fun q => q.CUSTOMER_NAME == f.CUSTOMER_NAME)
      f.INV_AMOUNT (f.INV_AMOUNT * (88 / 100)) with
  | some v =>
    obtain ⟨p, pct⟩ := v
    exact Or.inr (Or.inl ⟨p, pct, rfl, procesarFactura_single hs⟩)
  | none =>
    cases hc : findCombo (pool.filter fun q => q.CUSTOMER_NAME == f.CUSTOMER_NAME)
        f.INV_AMOUNT (f.INV_AMOUNT * (88 / 100)) with
    | some v =>
      obtain ⟨combo, pct⟩ := v
      exact Or.inr (Or.inr ⟨combo, pct, rfl, procesarFactura_combo hs hc⟩)
    | none => exact Or.inl (procesarFactura_none hs hc)

/-! ### Pool and uniqueness invariants -/

theorem procesarFactura_pool_sublist (pool : List Row) (f : Row) :
    ((procesarFactura pool f).2).Sublist pool := by
  rcases procesarFactura_cases pool f with h | ⟨p, pct, -, h⟩ | ⟨c, pct, -, h⟩ <;>
      rw [h]
  · exact List.filter_sublist pool
  · exact List.filter_sublist pool

/-- The emitted `Pago_TRX` values of a single-payment block. -/
theorem map_pago_single {f p : Row} {pct : String} :
    ([mkMatch f p pct].map fun r => r.Pago_TRX) = [p.TRX_NUMBER] := rfl

/-- The emitted `Pago_TRX` values of a combination block. -/
theorem map_pago_combo {f : Row} {combo : List Row} {pct : String} :
    ((combo.map fun p => mkMatch f p pct).map fun r => r.Pago_TRX) =
      combo.map fun p => p.TRX_NUMBER := by
  rw [List.map_map]; rfl

/-- Every payment trx emitted for one invoice is the trx of a pool row. -/
theorem procesarFactura_emitted_subset {pool : List Row} {f : Row} {t : String}
    (h : t ∈ (procesarFactura pool f).1.map fun r => r.Pago_TRX) :
    t ∈ pool.map fun q => q.TRX_NUMBER := by
  rcases procesarFactura_cases pool f with heq | ⟨p, pct, hs, heq⟩ |
      ⟨c, pct, hc, heq⟩ <;> rw [heq] at h
  · simp at h
  · rw [map_pago_single, List.mem_singleton] at h
    subst h
    have hp := (firstHit_mem hs).1
    exact List.mem_map.mpr ⟨p, (List.mem_filter.mp hp).1, rfl⟩
  · rw [map_pago_combo] at h
    obtain ⟨p, hp, rfl⟩ := List.mem_map.mp h
    have hsub : c.Sublist (pool.filter fun q => q.CUSTOMER_NAME == f.CUSTOMER_NAME) :=
      (mem_allCombos (firstHit_mem hc).1).1
    exact List.mem_map.mpr ⟨p, (List.mem_filter.mp (hsub.mem hp)).1, rfl⟩

/-- A trx emitted for one invoice no longer occurs in the updated pool. -/
theorem procesarFactura_emitted_removed {pool : List Row} {f : Row} {t : String}
    (h : t ∈ (procesarFactura pool f).1.map fun r => r.Pago_TRX) :
    t ∉ (procesarFactura pool f).2.map fun q => q.TRX_NUMBER := by
  rcases procesarFactura_cases pool f with heq | ⟨p, pct, hs, heq⟩ |
      ⟨c, pct, hc, heq⟩ <;> rw [heq] at h ⊢
  · simp at h
  · rw [map_pago_single, List.mem_singleton] at h
    subst h
    intro hmem
    obtain ⟨q, hq, hqt⟩ := List.mem_map.mp hmem
    have hkeep := (List.mem_filter.mp hq).2
    rw [hqt] at hkeep
    simp at hkeep
  · rw [map_pago_combo] at h
    intro hmem
    obtain ⟨q, hq, hqt⟩ := List.mem_map.mp hmem
    have hkeep := (List.mem_filter.mp hq).2
    rw [hqt] at hkeep
    simp only [Bool.not_eq_eq_eq_not, Bool.not_true, ← Bool.not_eq_true] at hkeep
    exact hkeep (List.contains_iff_exists_mem_beq.mpr ⟨t, h, by simp⟩)

theorem procesarFactura_block_nodup {pool : List Row} {f : Row}
    (hn : (pool.map fun q => q.TRX_NUMBER).Nodup) :
    ((procesarFactura pool f).1.map fun r => r.Pago_TRX).Nodup := by
  rcases procesarFactura_cases pool f with heq | ⟨p, pct, hs, heq⟩ |
      ⟨c, pct, hc, heq⟩ <;> rw [heq]
  · simp
  · rw [map_pago_single]
    exact List.nodup_singleton _
  · rw [map_pago_combo]
    have hsub : c.Sublist (pool.filter fun q => q.CUSTOMER_NAME == f.CUSTOMER_NAME) :=
      (mem_allCombos (firstHit_mem hc).1).1
    exact hn.sublist ((hsub.trans (List.filter_sublist pool)).map _)

theorem runBlocks_emitted_subset :
    ∀ (fs pool : List Row) (b : List MatchRecord), b ∈ runBlocks fs pool →
      ∀ t ∈ b.map fun r => r.Pago_TRX, t ∈ pool.map fun q => q.TRX_NUMBER := by
  intro fs
  induction fs with
  | nil => intro pool b hb; simp [runBlocks] at hb
  | cons f fs ih =>
    intro pool b hb t ht
    rcases List.mem_cons.mp hb with rfl | hb
    · exact procesarFactura_emitted_subset ht
    · have := ih (procesarFactura pool f).2 b hb t ht
      exact ((procesarFactura_pool_sublist pool f).map
        (fun q => q.TRX_NUMBER)).mem this

theorem runBlocks_flatten_subset {fs pool : List Row} {t : String}
    (h : t ∈ ((runBlocks fs pool).flatten.map fun r => r.Pago_TRX)) :
    t ∈ pool.map fun q => q.TRX_NUMBER := by
  obtain ⟨r, hr, rfl⟩ := List.mem_map.mp h
  obtain ⟨b, hb, hrb⟩ := List.mem_flatten.mp hr
  exact runBlocks_emitted_subset fs pool b hb _ (List.mem_map.mpr ⟨r, hrb, rfl⟩)

theorem runBlocks_nodup :
    ∀ (fs pool : List Row), (pool.map fun q => q.TRX_NUMBER).Nodup →
      (((runBlocks fs pool).flatten.map fun r => r.Pago_TRX)).Nodup := by
  intro fs
  induction fs with
  | nil => intro pool _; simp [runBlocks]
  | cons f fs ih =>
    intro pool hn
    rw [runBlocks, List.flatten_cons, List.map_append, List.nodup_append]
    refine ⟨procesarFactura_block_nodup hn, ?_, ?_⟩
    · exact ih _ (hn.sublist ((procesarFactura_pool_sublist pool f).map _))
    · intro t ht ht'
      exact procesarFactura_emitted_removed ht (runBlocks_flatten_subset ht')

/-! ### Claim theorems -/

/-- C1: consumed-at-most-once.  If the payment rows of the input carry
pairwise distinct `TRX_NUMBER`s (the global-uniqueness
assumption), then no payment trx appears in the `Pago_TRX` field of more than
one output record across the entire output: the emitted `Pago_TRX` list has no
duplicates, so a payment used for one invoice is never used again for any
later invoice. -/
theorem C1_consumed_at_most_once (df : List Row)
    (h : ((df.filter fun r => r.CLASS == "PMT").map fun r => r.TRX_NUMBER).Nodup) :
    ((procesar_archivos_excel df).map fun r => r.Pago_TRX).Nodup := by
  simp only [procesar_archivos_excel]
  exact runBlocks_nodup _ _ h

/-- Witness for C1 at a concrete input with two distinct payment trxs. -/
theorem C1_witness :
    ((([Row.mk "INV" "A" "F1" 100, Row.mk "PMT" "A" "P1" 100,
          Row.mk "PMT" "A" "P2" 100]).filter fun r => r.CLASS == "PMT").map
        fun r => r.TRX_NUMBER).Nodup ∧
      ((procesar_archivos_excel
          [Row.mk "INV" "A" "F1" 100, Row.mk "PMT" "A" "P1" 100,
            Row.mk "PMT" "A" "P2" 100]).map fun r => r.Pago_TRX).Nodup :=
  ⟨by decide, C1_consumed_at_most_once _ (by decide)⟩

/-- C8: determinism / purity.  The output of the core is a function of the
invoice subsequence and the payment subsequence of the input alone: two runs
on inputs with the same invoice rows (in order) and the same payment rows
(in order), each with a fresh pool, produce identical output sequences. -/
theorem C8_determinism (df df' : List Row)
    (hInv : df.filter (fun r => r.CLASS == "INV") =
      df'.filter (fun r => r.CLASS == "INV"))
    (hPmt : df.filter (fun r => r.CLASS == "PMT") =
      df'.filter (fun r => r.CLASS == "PMT")) :
    procesar_archivos_excel df = procesar_archivos_excel df' := by
  simp only [procesar_archivos_excel]
  rw [hInv, hPmt]

/-- Witness for C8: the same records with an unrelated row inserted. -/
theorem C8_witness :
    procesar_archivos_excel
        [Row.mk "INV" "A" "F1" 100, Row.mk "PMT" "A" "P1" 100] =
      procesar_archivos_excel
        [Row.mk "XXX" "Z" "Z9" 7, Row.mk "INV" "A" "F1" 100,
          Row.mk "PMT" "A" "P1" 100] :=
  C8_determinism _ _ (by decide) (by decide)

/-- C9: rows whose `CLASS` is neither `"INV"` nor `"PMT"` are silently
ignored: restricting the input to its `INV`/`PMT` rows does not change the
output. -/
theorem C9_other_class_ignored (df : List Row) :
    procesar_archivos_excel
        (df.filter fun r => r.CLASS == "INV" || r.CLASS == "PMT") =
      procesar_archivos_excel df := by
  simp only [procesar_archivos_excel]
  rw [List.filter_filter, List.filter_filter]
  have h1 : ∀ r : Row,
      (r.CLASS == "INV" && (r.CLASS == "INV" || r.CLASS == "PMT")) =
        (r.CLASS == "INV") := by
    intro r
    cases hi : r.CLASS == "INV" <;> cases hp : r.CLASS == "PMT" <;>
      simp [hi, hp]
  have h2 : ∀ r : Row,
      (r.CLASS == "PMT" && (r.CLASS == "INV" || r.CLASS == "PMT")) =
        (r.CLASS == "PMT") := by
    intro r
    cases hi : r.CLASS == "INV" <;> cases hp : r.CLASS == "PMT" <;>
      simp [hi, hp]
  rw [List.filter_congr (fun r _ => h1 r), List.filter_congr (fun r _ => h2 r)]

/-- C10: atomicity of no-match.  If neither the single-payment search nor the
combination search succeeds for an invoice, the loop body emits no rows and
returns the pool unchanged, so the run on this invoice followed by the rest is
the empty block followed by the rest run on the very same pool. -/
theorem C10_no_match_atomic (pool : List Row) (f : Row) (fs : List Row)
    (hs : findSingle (pool.filter fun q => q.CUSTOMER_NAME == f.CUSTOMER_NAME)
      f.INV_AMOUNT (f.INV_AMOUNT * (88 / 100)) = none)
    (hc : findCombo (pool.filter fun q => q.CUSTOMER_NAME == f.CUSTOMER_NAME)
      f.INV_AMOUNT (f.INV_AMOUNT * (88 / 100)) = none) :
    procesarFactura pool f = ([], pool) ∧
      runBlocks (f :: fs) pool = [] :: runBlocks fs pool := by
  have h := procesarFactura_none hs hc
  exact ⟨h, by rw [runBlocks, h]⟩

/-- Witness for C10: an invoice of a customer with no payments at all. -/
theorem C10_witness :
    procesarFactura [] (Row.mk "INV" "C" "F1" 500) = ([], []) ∧
      runBlocks [Row.mk "INV" "C" "F1" 500] [] = [[]] :=
  ⟨(C10_no_match_atomic [] (Row.mk "INV" "C" "F1" 500) [] rfl rfl).1,
    by rw [(C10_no_match_atomic [] (Row.mk "INV" "C" "F1" 500) [] rfl rfl).2]
       rfl⟩

/-! ### Global removal keyed on trx -/

theorem mem_filter_removal {pool : List Row} {removed : List String} {q : Row}
    (hq : q ∈ pool) :
    (q ∈ pool.filter fun p => !(removed.contains p.TRX_NUMBER)) ↔
      q.TRX_NUMBER ∉ removed := by
  rw [List.mem_filter]
  simp [hq, List.contains_iff_exists_mem_beq]

theorem poolAfter_sublist :
    ∀ (fs pool : List Row), (poolAfter fs pool).Sublist pool := by
  intro fs
  induction fs with
  | nil => intro pool; exact List.Sublist.refl pool
  | cons f fs ih =>
    intro pool
    exact (ih (procesarFactura pool f).2).trans
      (procesarFactura_pool_sublist pool f)

theorem procesarFactura_mem_iff {pool : List Row} {f q : Row} (hq : q ∈ pool) :
    q ∈ (procesarFactura pool f).2 ↔
      q.TRX_NUMBER ∉ (procesarFactura pool f).1.map fun r => r.Pago_TRX := by
  rcases procesarFactura_cases pool f with heq | ⟨p, pct, hs, heq⟩ |
      ⟨c, pct, hc, heq⟩ <;> rw [heq]
  · simpa using hq
  · rw [map_pago_single]
    exact mem_filter_removal hq
  · rw [map_pago_combo]
    exact mem_filter_removal hq

theorem procesarFactura_not_in_later {pool : List Row} {f : Row}
    {fs : List Row} {t : String}
    (h : t ∈ (procesarFactura pool f).1.map fun r => r.Pago_TRX) :
    ∀ b ∈ runBlocks fs (procesarFactura pool f).2,
      t ∉ b.map fun r => r.Pago_TRX := by
  intro b hb ht
  exact procesarFactura_emitted_removed h
    (runBlocks_emitted_subset fs _ b hb t ht)

/-- C7: global monotonic pool shrinkage.  (1) each loop iteration returns a
sublist of its input pool; (2) the pool after any run is a sublist of the
initial pool; (3) removal is keyed globally on the trx number: a pool row
survives an iteration exactly when its `TRX_NUMBER` is not among the emitted
`Pago_TRX` values, regardless of its customer; (4) a trx consumed for one
invoice never appears in the emitted rows of any later invoice. -/
theorem C7_pool_shrinkage :
    (∀ (pool : List Row) (f : Row), ((procesarFactura pool f).2).Sublist pool) ∧
      (∀ (fs pool : List Row), (poolAfter fs pool).Sublist pool) ∧
      (∀ (pool : List Row) (f q : Row), q ∈ pool →
        (q ∈ (procesarFactura pool f).2 ↔
          q.TRX_NUMBER ∉ (procesarFactura pool f).1.map fun r => r.Pago_TRX)) ∧
      (∀ (pool : List Row) (f : Row) (fs : List Row) (t : String),
        t ∈ ((procesarFactura pool f).1.map fun r => r.Pago_TRX) →
        ∀ b ∈ runBlocks fs (procesarFactura pool f).2,
          t ∉ b.map fun r => r.Pago_TRX) :=
  ⟨procesarFactura_pool_sublist, poolAfter_sublist,
    fun _ _ _ hq => procesarFactura_mem_iff hq,
    fun _ _ _ _ h => procesarFactura_not_in_later h⟩

/-- Witness for C7 at a concrete run: payment `P3` settles invoice `F2` and is
gone from the pool seen by the later invoice `F6`. -/
theorem C7_witness :
    ((procesarFactura [Row.mk "PMT" "B" "P3" 880]
        (Row.mk "INV" "B" "F2" 1000)).2).Sublist [Row.mk "PMT" "B" "P3" 880] ∧
      (poolAfter [Row.mk "INV" "B" "F2" 1000]
        [Row.mk "PMT" "B" "P3" 880]).Sublist [Row.mk "PMT" "B" "P3" 880] ∧
      (Row.mk "PMT" "B" "P3" 880 ∈
          (procesarFactura [Row.mk "PMT" "B" "P3" 880]
            (Row.mk "INV" "B" "F2" 1000)).2 ↔
        (Row.mk "PMT" "B" "P3" 880).TRX_NUMBER ∉
          (procesarFactura [Row.mk "PMT" "B" "P3" 880]
            (Row.mk "INV" "B" "F2" 1000)).1.map fun r => r.Pago_TRX) ∧
      "P3" ∉ (([] : List MatchRecord).map fun r => r.Pago_TRX) :=
  ⟨C7_pool_shrinkage.1 _ _,
    C7_pool_shrinkage.2.1 _ _,
    C7_pool_shrinkage.2.2.1 _ (Row.mk "INV" "B" "F2" 1000) _ (by decide),
    C7_pool_shrinkage.2.2.2 [Row.mk "PMT" "B" "P3" 880]
      (Row.mk "INV" "B" "F2" 1000) [Row.mk "INV" "B" "F6" 200] "P3"
      (by norm_num [procesarFactura, findSingle, firstHit, singleLabel,
        es_cobertura_valida, ratAbs, mkMatch])
      []
      (by norm_num [runBlocks, procesarFactura, findSingle, firstHit,
        singleLabel, es_cobertura_valida, ratAbs, findCombo, allCombos,
        combinations, comboLabel, suma, mkMatch])⟩

/-! ### Coverage of a block -/

/-- The emitted `ValorPago` values of a combination block. -/
theorem map_valor_combo {f : Row} {combo : List Row} {pct : String} :
    ((combo.map fun p => mkMatch f p pct).map fun r => r.ValorPago) =
      combo.map fun p => p.INV_AMOUNT := by
  rw [List.map_map]; rfl

theorem procesarFactura_block_coverage (pool : List Row) (f : Row) :
    ∀ r ∈ (procesarFactura pool f).1,
      (∀ r2 ∈ (procesarFactura pool f).1,
        r2.Porcentaje = r.Porcentaje ∧ r2.ValorFactura = r.ValorFactura) ∧
      (r.Porcentaje = "100%" →
        |(((procesarFactura pool f).1.map fun x => x.ValorPago).sum) -
          r.ValorFactura| ≤ 1) ∧
      (r.Porcentaje = "88%" →
        |(((procesarFactura pool f).1.map fun x => x.ValorPago).sum) -
          r.ValorFactura * (88 / 100)| ≤ 1) := by
  rcases procesarFactura_cases pool f with heq | ⟨p, pct, hs, heq⟩ |
      ⟨c, pct, hc, heq⟩ <;> rw [heq]
  · intro r hr; simp at hr
  · intro r hr
    rw [List.mem_singleton] at hr; subst hr
    have hlab := (firstHit_mem hs).2
    refine ⟨?_, ?_, ?_⟩
    · intro r2 hr2; rw [List.mem_singleton] at hr2; subst hr2; exact ⟨rfl, rfl⟩
    · intro h100
      rcases singleLabel_eq_some hlab with ⟨hpct, hes⟩ | ⟨hpct, -, -⟩
      · have hle := (es_cobertura_valida_iff _ _ _).mp hes
        simpa [mkMatch] using hle
      · simp only [mkMatch] at h100
        rw [hpct] at h100
        exact absurd h100 (by decide)
    · intro h88
      rcases singleLabel_eq_some hlab with ⟨hpct, -⟩ | ⟨hpct, -, hes⟩
      · simp only [mkMatch] at h88
        rw [hpct] at h88
        exact absurd h88 (by decide)
      · have hle := (es_cobertura_valida_iff _ _ _).mp hes
        simpa [mkMatch] using hle
  · intro r hr
    obtain ⟨p, hp, rfl⟩ := List.mem_map.mp hr
    have hlab := (firstHit_mem hc).2
    refine ⟨?_, ?_, ?_⟩
    · intro r2 hr2
      obtain ⟨p2, hp2, rfl⟩ := List.mem_map.mp hr2
      exact ⟨rfl, rfl⟩
    · intro h100
      rcases comboLabel_eq_some hlab with ⟨hpct, hes⟩ | ⟨hpct, -, -⟩
      · have hle := (es_cobertura_valida_iff _ _ _).mp hes
        rw [map_valor_combo]
        simpa [mkMatch, suma] using hle
      · simp only [mkMatch] at h100
        rw [hpct] at h100
        exact absurd h100 (by decide)
    · intro h88
      rcases comboLabel_eq_some hlab with ⟨hpct, -⟩ | ⟨hpct, -, hes⟩
      · simp only [mkMatch] at h88
        rw [hpct] at h88
        exact absurd h88 (by decide)
      · have hle := (es_cobertura_valida_iff _ _ _).mp hes
        rw [map_valor_combo]
        simpa [mkMatch, suma] using hle

/-- Every block of a run is the block of one loop iteration. -/
theorem runBlocks_mem :
    ∀ {fs pool : List Row} {b : List MatchRecord}, b ∈ runBlocks fs pool →
      ∃ pool0 f, b = (procesarFactura pool0 f).1 := by
  intro fs
  induction fs with
  | nil => intro pool b hb; simp [runBlocks] at hb
  | cons f fs ih =>
    intro pool b hb
    rcases List.mem_cons.mp hb with rfl | hb
    · exact ⟨pool, f, rfl⟩
    · exact ih hb

/-- C2: coverage correctness.  First, the tolerance predicate is exactly the
absolute, boundary-inclusive test `|amount - target| <= 1` (and it is the one
predicate used by both the single-payment and the combination branch, which
call `es_cobertura_valida` with tolerance `1`).  Second, in every per-invoice
block of every run: all rows share one `Porcentaje` label and one
`ValorFactura`; if the shared label is `"100%"` the `ValorPago` amounts sum to
within `1.00` of the invoice amount, and if it is `"88%"` they sum to within
`1.00` of the invoice amount times `88 / 100`. -/
theorem C2_coverage :
    (∀ a t : ℚ, es_cobertura_valida a t 1 = true ↔ |a - t| ≤ 1) ∧
      ∀ (df : List Row) (b : List MatchRecord),
        b ∈ runBlocks (df.filter fun r => r.CLASS == "INV")
            (df.filter fun r => r.CLASS == "PMT") →
        ∀ r ∈ b,
          (∀ r2 ∈ b, r2.Porcentaje = r.Porcentaje ∧
            r2.ValorFactura = r.ValorFactura) ∧
          (r.Porcentaje = "100%" →
            |((b.map fun x => x.ValorPago).sum) - r.ValorFactura| ≤ 1) ∧
          (r.Porcentaje = "88%" →
            |((b.map fun x => x.ValorPago).sum) -
              r.ValorFactura * (88 / 100)| ≤ 1) := by
  refine ⟨fun a t => es_cobertura_valida_iff a t 1, ?_⟩
  intro df b hb
  obtain ⟨pool0, f, rfl⟩ := runBlocks_mem hb
  exact procesarFactura_block_coverage pool0 f

/-- Witness for C2: the 88% block emitted for invoice `F2` (amount 1000) and
payment `P3` (amount 880). -/
theorem C2_witness :
    |(([MatchRecord.mk "F2" "B" 1000 "P3" 880 "88%"].map
        fun x => x.ValorPago).sum) -
      (MatchRecord.mk "F2" "B" 1000 "P3" 880 "88%").ValorFactura *
        (88 / 100)| ≤ 1 :=
  (C2_coverage.2 [Row.mk "INV" "B" "F2" 1000, Row.mk "PMT" "B" "P3" 880]
    [MatchRecord.mk "F2" "B" 1000 "P3" 880 "88%"]
    (by norm_num [runBlocks, procesarFactura, findSingle, firstHit,
      singleLabel, es_cobertura_valida, ratAbs, mkMatch])
    (MatchRecord.mk "F2" "B" 1000 "P3" 880 "88%") (by decide)).2.2 rfl

/-- C4: first-fit single matching.  When the single-payment search succeeds,
the candidate list is exactly the still-available payments of the customer in pool
order; the winner `p` is the first candidate passing the 100% test (checked
first) or the 88% test — every earlier candidate fails both tests — the label
records which test `p` passed; exactly one record is emitted, `p` (keyed by
its trx) is removed from the pool, and the combination search never runs. -/
theorem C4_single_first_fit (pool : List Row) (f p : Row) (pct : String)
    (h : findSingle (pool.filter fun q => q.CUSTOMER_NAME == f.CUSTOMER_NAME)
      f.INV_AMOUNT (f.INV_AMOUNT * (88 / 100)) = some (p, pct)) :
    (∃ l1 l2,
      pool.filter (fun q => q.CUSTOMER_NAME == f.CUSTOMER_NAME) =
          l1 ++ p :: l2 ∧
        (∀ q ∈ l1,
          es_cobertura_valida q.INV_AMOUNT f.INV_AMOUNT 1 = false ∧
          es_cobertura_valida q.INV_AMOUNT (f.INV_AMOUNT * (88 / 100)) 1 =
            false) ∧
        ((pct = "100%" ∧
            es_cobertura_valida p.INV_AMOUNT f.INV_AMOUNT 1 = true) ∨
          (pct = "88%" ∧
            es_cobertura_valida p.INV_AMOUNT f.INV_AMOUNT 1 = false ∧
            es_cobertura_valida p.INV_AMOUNT (f.INV_AMOUNT * (88 / 100)) 1 =
              true))) ∧
      procesarFactura pool f =
        ([mkMatch f p pct],
          pool.filter fun q => !([p.TRX_NUMBER].contains q.TRX_NUMBER)) := by
  obtain ⟨l1, l2, hsplit, hnone, hp⟩ := firstHit_eq_some h
  exact ⟨⟨l1, l2, hsplit,
    fun q hq => singleLabel_eq_none_iff.mp (hnone q hq),
    singleLabel_eq_some hp⟩, procesarFactura_single h⟩

/-- Witness for C4: payments `[P0 = 5, P1 = 88, P2 = 100]` against invoice
`F1 = 100`; `P0` fails both tests and `P1` wins with the 88% label even
though `P2` would pass the 100% test. -/
theorem C4_witness :
    procesarFactura
        [Row.mk "PMT" "A" "P0" 5, Row.mk "PMT" "A" "P1" 88,
          Row.mk "PMT" "A" "P2" 100]
        (Row.mk "INV" "A" "F1" 100) =
      ([mkMatch (Row.mk "INV" "A" "F1" 100) (Row.mk "PMT" "A" "P1" 88) "88%"],
        ([Row.mk "PMT" "A" "P0" 5, Row.mk "PMT" "A" "P1" 88,
            Row.mk "PMT" "A" "P2" 100]).filter
          fun q =>
            !([(Row.mk "PMT" "A" "P1" 88).TRX_NUMBER].contains
              q.TRX_NUMBER)) :=
  (C4_single_first_fit
    [Row.mk "PMT" "A" "P0" 5, Row.mk "PMT" "A" "P1" 88,
      Row.mk "PMT" "A" "P2" 100]
    (Row.mk "INV" "A" "F1" 100) (Row.mk "PMT" "A" "P1" 88) "88%"
    (by norm_num [findSingle, firstHit, singleLabel, es_cobertura_valida,
      ratAbs])).2

/-- C5: the combination search.  When no single payment matched and the
combination search succeeds with `(combo, pct)`: `combo` is the first element,
in the enumeration order of the code (sizes `r = 2` to `min(5, n)` in increasing
order, subsets of each size in lexicographic order over pool order), whose sum
passes the 100% test (checked first) or the 88% test — every earlier
enumerated subset fails both tests; `combo` is a subset of the available
payments of the customer, of size between 2 and 5; one record per member is emitted,
all sharing the label `pct`, and every member (keyed by trx) is removed from
the pool. -/
theorem C5_combination_search (pool : List Row) (f : Row) (combo : List Row)
    (pct : String)
    (hs : findSingle (pool.filter fun q => q.CUSTOMER_NAME == f.CUSTOMER_NAME)
      f.INV_AMOUNT (f.INV_AMOUNT * (88 / 100)) = none)
    (hc : findCombo (pool.filter fun q => q.CUSTOMER_NAME == f.CUSTOMER_NAME)
      f.INV_AMOUNT (f.INV_AMOUNT * (88 / 100)) = some (combo, pct)) :
    (∃ l1 l2,
      allCombos (pool.filter fun q => q.CUSTOMER_NAME == f.CUSTOMER_NAME) =
          l1 ++ combo :: l2 ∧
        (∀ c ∈ l1,
          es_cobertura_valida (suma c) f.INV_AMOUNT 1 = false ∧
          es_cobertura_valida (suma c) (f.INV_AMOUNT * (88 / 100)) 1 =
            false) ∧
        ((pct = "100%" ∧
            es_cobertura_valida (suma combo) f.INV_AMOUNT 1 = true) ∨
          (pct = "88%" ∧
            es_cobertura_valida (suma combo) f.INV_AMOUNT 1 = false ∧
            es_cobertura_valida (suma combo) (f.INV_AMOUNT * (88 / 100)) 1 =
              true))) ∧
      combo.Sublist
          (pool.filter fun q => q.CUSTOMER_NAME == f.CUSTOMER_NAME) ∧
      2 ≤ combo.length ∧ combo.length ≤ 5 ∧
      procesarFactura pool f =
        (combo.map fun p => mkMatch f p pct,
          pool.filter fun p =>
            !((combo.map fun q => q.TRX_NUMBER).contains p.TRX_NUMBER)) := by
  obtain ⟨l1, l2, hsplit, hnone, hcombo⟩ := firstHit_eq_some hc
  obtain ⟨hsub, h2, h5⟩ := mem_allCombos (firstHit_mem hc).1
  exact ⟨⟨l1, l2, hsplit,
    fun c hcm => comboLabel_eq_none_iff.mp (hnone c hcm),
    comboLabel_eq_some hcombo⟩, hsub, h2, h5, procesarFactura_combo hs hc⟩

/-- Witness for C5: invoice `F1 = 1000` with payments `P1 = 500` and
`P2 = 500.50`; no single payment matches but the pair sums to `1000.50`,
within the tolerance of the 100% target. -/
theorem C5_witness :
    procesarFactura
        [Row.mk "PMT" "A" "P1" 500, Row.mk "PMT" "A" "P2" (1001 / 2)]
        (Row.mk "INV" "A" "F1" 1000) =
      ([Row.mk "PMT" "A" "P1" 500, Row.mk "PMT" "A" "P2" (1001 / 2)].map
          fun p => mkMatch (Row.mk "INV" "A" "F1" 1000) p "100%",
        ([Row.mk "PMT" "A" "P1" 500,
            Row.mk "PMT" "A" "P2" (1001 / 2)]).filter
          fun p =>
            !((([Row.mk "PMT" "A" "P1" 500,
                Row.mk "PMT" "A" "P2" (1001 / 2)]).map
              fun q => q.TRX_NUMBER).contains p.TRX_NUMBER)) :=
  (C5_combination_search
    [Row.mk "PMT" "A" "P1" 500, Row.mk "PMT" "A" "P2" (1001 / 2)]
    (Row.mk "INV" "A" "F1" 1000)
    [Row.mk "PMT" "A" "P1" 500, Row.mk "PMT" "A" "P2" (1001 / 2)] "100%"
    (by norm_num [findSingle, firstHit, singleLabel, es_cobertura_valida,
      ratAbs])
    (by norm_num [findCombo, firstHit, allCombos, combinations, comboLabel,
      suma, es_cobertura_valida, ratAbs])).2.2.2.2

/-- C6: bounded search.  If the single-payment search fails and every subset
of the available payments of the customer of size 2 to 5 fails both tolerance
tests (with the size-1 subsets covered by the failed single search), the
invoice emits nothing and leaves the pool unchanged — no subset of size
larger than 5 is ever considered. -/
theorem C6_bounded_search (pool : List Row) (f : Row) (fs : List Row)
    (hs : findSingle (pool.filter fun q => q.CUSTOMER_NAME == f.CUSTOMER_NAME)
      f.INV_AMOUNT (f.INV_AMOUNT * (88 / 100)) = none)
    (hall : ∀ c : List Row,
      c.Sublist (pool.filter fun q => q.CUSTOMER_NAME == f.CUSTOMER_NAME) →
      2 ≤ c.length → c.length ≤ 5 →
      es_cobertura_valida (suma c) f.INV_AMOUNT 1 = false ∧
        es_cobertura_valida (suma c) (f.INV_AMOUNT * (88 / 100)) 1 = false) :
    procesarFactura pool f = ([], pool) ∧
      runBlocks (f :: fs) pool = [] :: runBlocks fs pool := by
  have hcombo : findCombo
      (pool.filter fun q => q.CUSTOMER_NAME == f.CUSTOMER_NAME)
      f.INV_AMOUNT (f.INV_AMOUNT * (88 / 100)) = none := by
    rw [findCombo, firstHit_eq_none_iff]
    intro c hc
    obtain ⟨hsub, h2, h5⟩ := mem_allCombos hc
    exact comboLabel_eq_none_iff.mpr (hall c hsub h2 h5)
  have h := procesarFactura_none hs hcombo
  exact ⟨h, by rw [runBlocks, h]⟩

/-- Witness for C6 (scenario 4 of the spec): invoice `F4 = 3000` against six
payments of 500 for the same customer.  All six together sum to exactly 3000,
but no subset of size 2 to 5 comes within tolerance of 3000 or 2640, so the
invoice emits nothing and the pool is untouched. -/
theorem C6_witness :
    suma [Row.mk "PMT" "D" "D1" 500, Row.mk "PMT" "D" "D2" 500,
        Row.mk "PMT" "D" "D3" 500, Row.mk "PMT" "D" "D4" 500,
        Row.mk "PMT" "D" "D5" 500, Row.mk "PMT" "D" "D6" 500] = 3000 ∧
      procesarFactura
          [Row.mk "PMT" "D" "D1" 500, Row.mk "PMT" "D" "D2" 500,
            Row.mk "PMT" "D" "D3" 500, Row.mk "PMT" "D" "D4" 500,
            Row.mk "PMT" "D" "D5" 500, Row.mk "PMT" "D" "D6" 500]
          (Row.mk "INV" "D" "F4" 3000) =
        ([], [Row.mk "PMT" "D" "D1" 500, Row.mk "PMT" "D" "D2" 500,
          Row.mk "PMT" "D" "D3" 500, Row.mk "PMT" "D" "D4" 500,
          Row.mk "PMT" "D" "D5" 500, Row.mk "PMT" "D" "D6" 500]) := by
  constructor
  · norm_num [suma]
  · refine (C6_bounded_search _ (Row.mk "INV" "D" "F4" 3000) [] ?_ ?_).1
    · norm_num [findSingle, firstHit, singleLabel, es_cobertura_valida,
        ratAbs]
    · intro c hsub h2 h5
      have hmem : ∀ p ∈ c, p.INV_AMOUNT = 500 := by
        intro p hp
        have hpool := (List.mem_filter.mp (hsub.mem hp)).1
        simp only [List.mem_cons, List.not_mem_nil, or_false] at hpool
        rcases hpool with rfl | rfl | rfl | rfl | rfl | rfl <;> rfl
      have hsum : suma c = c.length * 500 := by
        rw [suma, List.sum_eq_card_nsmul (c.map fun p => p.INV_AMOUNT) 500
          (by intro x hx
              obtain ⟨p, hp, rfl⟩ := List.mem_map.mp hx
              exact hmem p hp),
          List.length_map, nsmul_eq_mul]
      constructor <;> rw [es_cobertura_valida_eq_false_iff, hsum] <;>
        · set k := c.length with hk
          interval_cases k <;> norm_num

/-- Counterexample to C3 as stated.  Input: invoice `F1 = 100` (customer A)
and payments `P1 = 88`, `P2 = 100` (customer A).  Among the available
payments of the invoice, `P2` passes the 100% tolerance test and `P1` passes the
88% tolerance test, yet the engine reports `"88%"`, not `"100%"`: the single
search takes the first payment passing either test (`P1`), so an earlier
88%-only payment beats a later 100% payment. -/
theorem C3_counterexample :
    ((([Row.mk "INV" "A" "F1" 100, Row.mk "PMT" "A" "P1" 88,
          Row.mk "PMT" "A" "P2" 100].filter fun r => r.CLASS == "PMT").filter
        fun p => p.CUSTOMER_NAME == "A").any
      fun p => es_cobertura_valida p.INV_AMOUNT 100 1) = true ∧
    ((([Row.mk "INV" "A" "F1" 100, Row.mk "PMT" "A" "P1" 88,
          Row.mk "PMT" "A" "P2" 100].filter fun r => r.CLASS == "PMT").filter
        fun p => p.CUSTOMER_NAME == "A").any
      fun p => es_cobertura_valida p.INV_AMOUNT (100 * (88 / 100)) 1) =
        true ∧
    ((procesar_archivos_excel
        [Row.mk "INV" "A" "F1" 100, Row.mk "PMT" "A" "P1" 88,
          Row.mk "PMT" "A" "P2" 100]).map fun r => r.Porcentaje) = ["88%"] ∧
    ¬ ((procesar_archivos_excel
        [Row.mk "INV" "A" "F1" 100, Row.mk "PMT" "A" "P1" 88,
          Row.mk "PMT" "A" "P2" 100]).map fun r => r.Porcentaje) =
      ["100%"] := by
  have hmap : ((procesar_archivos_excel
      [Row.mk "INV" "A" "F1" 100, Row.mk "PMT" "A" "P1" 88,
        Row.mk "PMT" "A" "P2" 100]).map fun r => r.Porcentaje) = ["88%"] := by
    norm_num [procesar_archivos_excel, runBlocks, procesarFactura,
      findSingle, firstHit, singleLabel, es_cobertura_valida, ratAbs,
      mkMatch]
  refine ⟨?_, ?_, hmap, ?_⟩
  · norm_num [es_cobertura_valida, ratAbs]
  · norm_num [es_cobertura_valida, ratAbs]
  · rw [hmap]
    simp

/-- C3 (amended): the 100% check precedes the 88% check per candidate
payment, not per invoice.  Whenever the single-payment search succeeds and
the winning payment itself passes the 100% tolerance test, the reported
coverage is `"100%"` — even if that payment also passes the 88% test.  (The
unamended claim fails because an earlier 88%-only payment can win before any
100%-capable payment is reached; see the counterexample.) -/
theorem C3_priority_amended (pool : List Row) (f p : Row) (pct : String)
    (h : findSingle (pool.filter fun q => q.CUSTOMER_NAME == f.CUSTOMER_NAME)
      f.INV_AMOUNT (f.INV_AMOUNT * (88 / 100)) = some (p, pct))
    (h100 : es_cobertura_valida p.INV_AMOUNT f.INV_AMOUNT 1 = true) :
    pct = "100%" ∧
      ((procesarFactura pool f).1.map fun r => r.Porcentaje) = ["100%"] := by
  rcases singleLabel_eq_some (firstHit_mem h).2 with ⟨hpct, -⟩ |
      ⟨-, hfalse, -⟩
  · subst hpct
    exact ⟨rfl, by rw [procesarFactura_single h]; rfl⟩
  · rw [h100] at hfalse
    exact absurd hfalse (by decide)

/-- Witness for the amended C3: invoice `F1 = 10` and payment `P1 = 9.5`,
which passes both the 100% test (`|9.5 - 10| = 0.5`) and the 88% test
(`|9.5 - 8.8| = 0.7`); the engine reports `"100%"`. -/
theorem C3_witness :
    ("100%" : String) = "100%" ∧
      ((procesarFactura [Row.mk "PMT" "A" "P1" (19 / 2)]
        (Row.mk "INV" "A" "F1" 10)).1.map fun r => r.Porcentaje) =
        ["100%"] :=
  C3_priority_amended [Row.mk "PMT" "A" "P1" (19 / 2)]
    (Row.mk "INV" "A" "F1" 10) (Row.mk "PMT" "A" "P1" (19 / 2)) "100%"
    (by norm_num [findSingle, firstHit, singleLabel, es_cobertura_valida,
      ratAbs])
    (by norm_num [es_cobertura_valida, ratAbs])
